import Mathlib

/-!
Shallow embedding of the "a-tiny-tractor" core (sound_manager.c,
tractor_model.c, button_manager.c) in Lean 4.

Machine integers are modelled as `Nat` with explicit `% 2 ^ w` at the
points where the C code can overflow or truncates on a cast:

* `uint8_t` fields: increments are taken `% 256`, casts insert `% 256`;
* `uint16_t` fields (`engine_speed`, `horn_counter`, the two sample
  cursors): additions are taken `% 65536`;
* the `uint32_t` intermediate of `update_engine_speed` cannot overflow
  for representable states (`engine_speed < 2 ^ 16`, shift `a ≤ 6`),
  so it is plain `Nat` arithmetic followed by the `% 65536` of the final
  `uint16_t` cast.

The PROGMEM wavetables `ENGINE_RUNNING` / `TRACTOR_HORN` are byte arrays
generated from WAV files; their contents are not part of the repository
source, so `audio_get_next_sample` is parameterized by the two tables
(`Nat → Nat`, entries standing for bytes) and their sizes, exactly as the
C code is parametric in the linked-in data.
-/

namespace TinyTractor

/-- TRACTOR_STATUS_UPDATE_CYCLE: call rate (ms) of the tractor status manager. -/
def TRACTOR_STATUS_UPDATE_CYCLE : Nat := 40

/-- ENGINE_SPEED_IDLE: idle engine speed (800 rpm) in BP6 format. -/
def ENGINE_SPEED_IDLE : Nat := 64

/-- ENGINE_SPEED_MIN: minimum engine speed enabling audio and visual effects. -/
def ENGINE_SPEED_MIN : Nat := 68

/-- ENGINE_SPEED_MAX: maximum engine speed (2100 rpm) in BP6 format. -/
def ENGINE_SPEED_MAX : Nat := 168

/-- Ignition position OFF. -/
def IGNITION_OFF : Nat := 0

/-- Ignition position ON. -/
def IGNITION_ON : Nat := 1

/-- Ignition position START. -/
def IGNITION_START : Nat := 2

/-- Song id of the single honk. -/
def SONG_SINGLE_HONK : Nat := 0

/-- Song id of the double honk. -/
def SONG_DOUBLE_HONK : Nat := 1

/-- Song id of the "Dixie" song. -/
def SONG_DIXIE : Nat := 2

/-- Total number of songs managed by the sound module. -/
def SONG_COUNT : Nat := 3

/-- HORN_NOTE_DURATION: duration of each note of a horn song, in update ticks. -/
def HORN_NOTE_DURATION : Nat := 160 / TRACTOR_STATUS_UPDATE_CYCLE

/-- HORN_PAUSE_DURATION: duration of each pause (note 0) of a horn song, in ticks. -/
def HORN_PAUSE_DURATION : Nat := 40 / TRACTOR_STATUS_UPDATE_CYCLE

/-- MAX_SONG_SIZE: maximum size of a horn song. -/
def MAX_SONG_SIZE : Nat := 30

/-- CRANKING_MINIMUM_TIME: minimum ticks the key must stay in START. -/
def CRANKING_MINIMUM_TIME : Nat := 4000 / TRACTOR_STATUS_UPDATE_CYCLE

/-- CRANKING_ENGINE_SPEED: engine speed kept during the cranking stage. -/
def CRANKING_ENGINE_SPEED : Nat := 2 * ENGINE_SPEED_IDLE / 5

/-- HORN_CYCLE: period of the automatic horn honking, in ticks. -/
def HORN_CYCLE : Nat := 16000 / TRACTOR_STATUS_UPDATE_CYCLE

/-- LED_CYCLE: period of the automatic led blinking, in ticks. -/
def LED_CYCLE : Nat := 3000 / TRACTOR_STATUS_UPDATE_CYCLE

/-- Engine status ENGINE_OFF. -/
def ENGINE_OFF : Nat := 0

/-- Engine status ENGINE_CRANKING. -/
def ENGINE_CRANKING : Nat := 1

/-- Engine status ENGINE_RUNNING. -/
def ENGINE_RUNNING : Nat := 2

/-- The `Song` struct: actual size plus the 30-byte note array. -/
structure Song where
  size : Nat
  note : List Nat
deriving DecidableEq, Repr

/-- The SONG macro: note list plus zero padding of the static array. -/
def mkSong (notes : List Nat) : Song :=
  { size := notes.length,
    note := notes ++ List.replicate (MAX_SONG_SIZE - notes.length) 0 }

/-- SONG_LIBRARY: the three horn songs of sound_manager.c. -/
def SONG_LIBRARY : List Song :=
  [mkSong [64, 64, 64],
   mkSong [64, 64, 0, 64, 64],
   mkSong [64, 80, 64, 64, 0, 64, 64, 0, 64, 72, 80, 85,
           96, 96, 0, 96, 96, 0, 96, 96, 0, 80, 80]]

/-- The `Horn` struct: details of the current song. -/
structure Horn where
  song : Song
  current_note : Nat
  note_counter : Nat
  index_increment : Nat
  playing : Bool
deriving DecidableEq, Repr

/-- Initial value of the static variable `horn`. -/
def horn0 : Horn :=
  { song := { size := 0, note := List.replicate MAX_SONG_SIZE 0 },
    current_note := 0,
    note_counter := 0,
    index_increment := 0,
    playing := false }

/-- The `SampleIndex` struct: the two fixed-point sample cursors (uint16). -/
structure SampleIndex where
  engine : Nat
  horn : Nat
deriving DecidableEq, Repr

/-- Initial value of the static variable `sample_index`. -/
def sample_index0 : SampleIndex := { engine := 0, horn := 0 }

/-- audio_play_horn_song: copy the requested library song into the player
and start it; requests with `song ≥ SONG_COUNT` are ignored. -/
def audio_play_horn_song (song : Nat) (h : Horn) : Horn :=
  if song < SONG_COUNT then
    let s := SONG_LIBRARY.getD song horn0.song
    { song := s,
      current_note := 0,
      note_counter := 0,
      index_increment := s.note.getD 0 0,
      playing := true }
  else h

/-- audio_horn_manager: advance the horn song sequencer by one 40 ms tick. -/
def audio_horn_manager (h : Horn) : Horn :=
  if h.playing then
    let duration := if h.index_increment ≠ 0 then HORN_NOTE_DURATION
      else HORN_PAUSE_DURATION
    let nc := (h.note_counter + 1) % 256
    let h1 :=
      if duration ≤ nc then
        let cn := (h.current_note + 1) % 256
        { h with note_counter := 0,
                 current_note := cn,
                 playing := if h.song.size < cn then false else h.playing }
      else { h with note_counter := nc }
    { h1 with index_increment := h1.song.note.getD h1.current_note 0 }
  else h

/-- audio_get_next_sample: produce one mixed 8-bit audio sample.  The engine
wavetable `er` (size `erSize`, BP4 cursor) and the horn wavetable `th`
(size `thSize`, BP6 cursor) stand for the PROGMEM byte arrays
`ENGINE_RUNNING` and `TRACTOR_HORN`, whose data is generated outside the
sources.  Returns the updated cursors and the output sample. -/
def audio_get_next_sample (er : Nat → Nat) (erSize : Nat)
    (th : Nat → Nat) (thSize : Nat)
    (engine_speed : Nat) (horn : Horn) (si : SampleIndex) :
    SampleIndex × Nat :=
  let ep :=
    if engine_speed ≠ 0 then
      let e0 := (si.engine + engine_speed / 4) % 65536
      let e1 := if erSize * 16 ≤ e0 then e0 - erSize * 16 else e0
      let index := e1 / 16
      let offset := e1 % 16
      let s :=
        if offset < 16 then er index
        else if offset < 48 then er index / 2 + er (index + 1) / 2
        else er (index + 1)
      (e1, s)
    else (0, 128)
  let hp :=
    if horn.playing = true ∧ horn.index_increment ≠ 0 then
      let h0 := (si.horn + horn.index_increment) % 65536
      let h1 := if thSize * 64 ≤ h0 then h0 - thSize * 64 else h0
      let index := h1 / 64
      let offset := h1 % 64
      let s :=
        if offset < 16 then th index
        else if offset < 48 then th index / 2 + th (index + 1) / 2
        else th (index + 1)
      (h1, s)
    else (0, 128)
  let sample : Int := (ep.2 : Int) + (hp.2 : Int) - 128
  let out : Nat := if 255 < sample then 255 else if sample < 0 then 0 else sample.toNat
  (⟨ep.1, hp.1⟩, out)

/-- The `Tractor` struct: status of the tractor model. -/
structure Tractor where
  engine_speed : Nat
  horn_counter : Nat
  status : Nat
  engine_speed_setpoint : Nat
  ignition_position : Nat
  cranking_counter : Nat
  led_counter : Nat
deriving DecidableEq, Repr

/-- Initial value of the static variable `tractor`. -/
def tractor0 : Tractor :=
  { engine_speed := 0,
    horn_counter := 0,
    led_counter := 0,
    status := ENGINE_OFF,
    engine_speed_setpoint := 0,
    ignition_position := IGNITION_OFF,
    cranking_counter := 0 }

/-- update_engine_speed: one step of the shift-only first order low-pass
filter; `<< a` is `* 2 ^ a`, `>> a` is `/ 2 ^ a`, the `uint16_t` casts are
the two `% 65536`. -/
def update_engine_speed (a : Nat) (t : Tractor) : Tractor :=
  { t with engine_speed :=
      ((t.engine_speed * 2 ^ a - t.engine_speed +
        (t.engine_speed_setpoint * 256) % 65536) / 2 ^ a) % 65536 }

/-- tractor_get_engine_speed: the public BP6 speed, `(uint8_t)(speed >> 8)`. -/
def tractor_get_engine_speed (t : Tractor) : Nat :=
  (t.engine_speed / 256) % 256

/-- is_led_on: status of the led due to the periodic hexa-blinking. -/
def is_led_on (t : Tractor) : Bool :=
  if ENGINE_SPEED_MIN ≤ tractor_get_engine_speed t then
    decide (t.led_counter % 2 ≠ 0 ∧ t.led_counter < 12)
  else false

/-- The `switch (tractor.status)` body of tractor_update_model, acting on
the tractor state plus the horn player it triggers. -/
def tractor_switch (t : Tractor) (h : Horn) : Tractor × Horn :=
  if t.status = ENGINE_CRANKING then
    let cc := (t.cranking_counter + 1) % 256
    let t1 :=
      if CRANKING_MINIMUM_TIME < cc then
        { t with cranking_counter := cc,
                 status := ENGINE_RUNNING,
                 engine_speed_setpoint := ENGINE_SPEED_IDLE,
                 horn_counter := 0,
                 led_counter := LED_CYCLE }
      else if t.ignition_position ≠ IGNITION_START then
        { t with cranking_counter := cc,
                 status := ENGINE_OFF,
                 engine_speed_setpoint := 0 }
      else { t with cranking_counter := cc }
    (update_engine_speed 4 t1, h)
  else if t.status = ENGINE_RUNNING then
    if t.ignition_position = IGNITION_OFF then
      ({ t with status := ENGINE_OFF, engine_speed_setpoint := 0 }, h)
    else
      let p :=
        if ENGINE_SPEED_MIN ≤ tractor_get_engine_speed t then
          let hc := (t.horn_counter + 1) % 65536
          if hc = HORN_CYCLE / 2 then
            (update_engine_speed 6 { t with horn_counter := hc },
             audio_play_horn_song SONG_DOUBLE_HONK h)
          else if HORN_CYCLE ≤ hc then
            (update_engine_speed 6 { t with horn_counter := 0 },
             audio_play_horn_song SONG_SINGLE_HONK h)
          else
            (update_engine_speed 6 { t with horn_counter := hc }, h)
        else (update_engine_speed 4 t, h)
      let lc := (p.1.led_counter + 1) % 256
      ({ p.1 with led_counter := if LED_CYCLE < lc then 0 else lc }, p.2)
  else
    let t1 :=
      if t.ignition_position = IGNITION_START then
        { t with status := ENGINE_CRANKING,
                 engine_speed_setpoint := CRANKING_ENGINE_SPEED,
                 cranking_counter := 0 }
      else t
    (update_engine_speed 2 t1, h)

/-- tractor_update_model: run the status switch, then audio_horn_manager,
and return the led status computed on the updated state. -/
def tractor_update_model (t : Tractor) (h : Horn) : (Tractor × Horn) × Bool :=
  let p := tractor_switch t h
  ((p.1, audio_horn_manager p.2), is_led_on p.1)

/-- tractor_set_ignition_position: store the position, unvalidated. -/
def tractor_set_ignition_position (position : Nat) (t : Tractor) : Tractor :=
  { t with ignition_position := position }

/-- tractor_set_engine_speed_setpoint: ignored unless RUNNING, otherwise the
setpoint is saturated between ENGINE_SPEED_IDLE and ENGINE_SPEED_MAX. -/
def tractor_set_engine_speed_setpoint (setpoint : Nat) (t : Tractor) : Tractor :=
  if t.status ≠ ENGINE_RUNNING then t
  else
    let sp :=
      if ENGINE_SPEED_MAX < setpoint then ENGINE_SPEED_MAX
      else if setpoint < ENGINE_SPEED_IDLE then ENGINE_SPEED_IDLE
      else setpoint
    { t with engine_speed_setpoint := sp }

/-- Iterate `tractor_update_model` (the 25 Hz tick), dropping the led flag. -/
def runModel : Nat → Tractor × Horn → Tractor × Horn
  | 0, s => s
  | n + 1, s => runModel n (tractor_update_model s.1 s.2).1

/-- The `ButtonState` statics of button_manager.c: `button_level` and
`button_clicked`, both uint8 bitmasks. -/
structure ButtonState where
  level : Nat
  clicked : Nat
deriving DecidableEq, Repr

/-- Initial button manager state. -/
def button0 : ButtonState := { level := 0, clicked := 0 }

/-- The BM macro: bitmask of the button with the given index. -/
def BM (button : Nat) : Nat := 1 <<< button

/-- Number of buttons managed by button_manager.c. -/
def BUTTON_COUNT : Nat := 3

/-- button_set_adc_value: decode the ADC reading into the new level bitmask
and accumulate rising edges into the pending-click bitmask. -/
def button_set_adc_value (adc_value : Nat) (st : ButtonState) : ButtonState :=
  let button_new_level :=
    if adc_value ≤ 23 then 0
    else if adc_value ≤ 63 then BM 0
    else if adc_value ≤ 99 then BM 0 ||| BM 2
    else if adc_value ≤ 186 then BM 0 ||| BM 1
    else BM 0 ||| BM 1 ||| BM 2
  { level := button_new_level,
    clicked := st.clicked |||
      (((255 ^^^ st.level) &&& button_new_level) &&& ((1 <<< BUTTON_COUNT) - 1)) }

/-- button_is_pressed: test the level bit of the given button. -/
def button_is_pressed (button : Nat) (st : ButtonState) : Bool :=
  decide ((st.level &&& BM button) ≠ 0)

/-- button_is_clicked: read and clear the click bit of the given button
(`(uint8_t)BM(button)` is the `% 256`, `~mask` on a uint8 is `255 ^^^`). -/
def button_is_clicked (button : Nat) (st : ButtonState) : Bool × ButtonState :=
  let mask := BM button % 256
  (decide ((st.clicked &&& mask) ≠ 0),
   { st with clicked := st.clicked &&& (255 ^^^ mask) })

/-- One call into the horn player: either a playback request or a 40 ms tick. -/
inductive HornOp where
  | play (song : Nat)
  | tick
deriving DecidableEq, Repr

/-- Apply one horn player call. -/
def applyHornOp (h : Horn) : HornOp → Horn
  | HornOp.play s => audio_play_horn_song s h
  | HornOp.tick => audio_horn_manager h

/-- Invariant of the horn player: the note index stays at most one past the
copied song's size, and while playing it never passes the size. -/
def hornInvariant (h : Horn) : Prop :=
  h.current_note ≤ h.song.size + 1 ∧
  (h.playing = true → h.current_note ≤ h.song.size)

instance (h : Horn) : Decidable (hornInvariant h) := by
  unfold hornInvariant; infer_instance

/-- The model state right after power-on with the key turned to START:
the initial statics with `tractor_set_ignition_position(IGNITION_START)`. -/
def startState : Tractor × Horn :=
  (tractor_set_ignition_position IGNITION_START tractor0, horn0)

/-- A running tractor at full speed: `engine_speed = ENGINE_SPEED_MAX << 8`
with matching setpoint is the filter's fixed point, so the state persists
tick after tick. -/
def tRunning : Tractor :=
  { engine_speed := ENGINE_SPEED_MAX * 256,
    horn_counter := 0,
    status := ENGINE_RUNNING,
    engine_speed_setpoint := ENGINE_SPEED_MAX,
    ignition_position := IGNITION_ON,
    cranking_counter := 0,
    led_counter := 0 }

/-- Horn player sitting on the rest (note 0) of the double-honk song. -/
def hornOnRest : Horn :=
  { song := mkSong [64, 64, 0, 64, 64],
    current_note := 2,
    note_counter := 0,
    index_increment := 0,
    playing := true }

/-- Horn player sitting on a sounding note of the double-honk song. -/
def hornOnNote : Horn :=
  { song := mkSong [64, 64, 0, 64, 64],
    current_note := 0,
    note_counter := 0,
    index_increment := 64,
    playing := true }

/-- Horn player that has just entered the trailing rest of the single-honk
song: the note index equals the song size. -/
def hornAtEnd : Horn :=
  { song := mkSong [64, 64, 64],
    current_note := 3,
    note_counter := 0,
    index_increment := 0,
    playing := true }

/-- Horn player sounding a note with unit increment. -/
def hornSounding : Horn :=
  { song := mkSong [64, 64, 64],
    current_note := 0,
    note_counter := 0,
    index_increment := 1,
    playing := true }

/-- Characterization of `is_led_on`: the led is on exactly when the public
speed is at least `ENGINE_SPEED_MIN` and the led counter is odd and below 12. -/
theorem is_led_on_iff (t : Tractor) :
    is_led_on t = true ↔
      (ENGINE_SPEED_MIN ≤ tractor_get_engine_speed t ∧
       t.led_counter % 2 = 1 ∧ t.led_counter < 12) := by
  unfold is_led_on
  split_ifs with hs
  · simp only [decide_eq_true_eq]
    constructor
    · rintro ⟨h1, h2⟩; exact ⟨hs, by omega, h2⟩
    · rintro ⟨_, h1, h2⟩; exact ⟨by omega, h2⟩
  · simp only [Bool.false_eq_true, false_iff]
    rintro ⟨h1, _, _⟩; exact hs h1

/-- C3: for every setpoint argument, `tractor_set_engine_speed_setpoint`
clamps the value into [ENGINE_SPEED_IDLE, ENGINE_SPEED_MAX] and stores it
while the status is RUNNING, and leaves the state unchanged otherwise. -/
theorem c3_setpoint_clamped (sp : Nat) (t : Tractor) :
    tractor_set_engine_speed_setpoint sp t =
      if t.status = ENGINE_RUNNING then
        { t with engine_speed_setpoint := max ENGINE_SPEED_IDLE (min sp ENGINE_SPEED_MAX) }
      else t := by
  obtain ⟨es, hc, st, spt, ig, cc, lc⟩ := t
  unfold tractor_set_engine_speed_setpoint
  split_ifs with h1 h2 <;>
    simp_all [Tractor.mk.injEq, ENGINE_SPEED_IDLE, ENGINE_SPEED_MAX] <;> omega

set_option maxRecDepth 100000 in
/-- C1 (counterexample): holding the key at START from the initial state,
the 102nd update transitions to RUNNING, but the led blink counter is set
to LED_CYCLE = 75, not reset to 0. -/
theorem c1_led_counter_not_reset :
    (runModel 102 startState).1.status = ENGINE_RUNNING ∧
    (runModel 102 startState).1.led_counter = LED_CYCLE ∧
    ¬ (runModel 102 startState).1.led_counter = 0 := by decide

set_option maxRecDepth 100000 in
/-- C1 (amended): from the initial OFF state with ignition held at START,
the status is CRANKING from the first update through the 101st; on the
102nd update (cranking counter 101 > CRANKING_MINIMUM_TIME = 100) the
status becomes RUNNING with setpoint ENGINE_SPEED_IDLE, the horn cycle
counter reset to 0 and the led blink counter set to LED_CYCLE (so that it
wraps to 0 on the next running tick). -/
theorem c1_start_cranking_to_running :
    (∀ n, n < 102 → 1 ≤ n →
      (runModel n startState).1.status = ENGINE_CRANKING) ∧
    (runModel 102 startState).1.status = ENGINE_RUNNING ∧
    (runModel 102 startState).1.engine_speed_setpoint = ENGINE_SPEED_IDLE ∧
    (runModel 102 startState).1.horn_counter = 0 ∧
    (runModel 102 startState).1.led_counter = LED_CYCLE ∧
    (runModel 102 startState).1.cranking_counter = CRANKING_MINIMUM_TIME + 1 := by
  decide

set_option maxRecDepth 100000 in
/-- Witness for C1: instantiating the bounded quantifier at tick 50. -/
theorem c1_start_cranking_to_running_witness :
    (runModel 50 startState).1.status = ENGINE_CRANKING :=
  c1_start_cranking_to_running.1 50 (by decide) (by decide)

/-- C2 (counterexample): with engine_speed = 0 but a horn note sounding,
`audio_get_next_sample` returns the horn sample (here 200), not the
silence level 128, even though the engine cursor is reset. -/
theorem c2_horn_overrides_silence :
    (audio_get_next_sample (fun _ => 0) 1 (fun _ => 200) 2 0
        hornSounding sample_index0).2 = 200 ∧
    ¬ (audio_get_next_sample (fun _ => 0) 1 (fun _ => 200) 2 0
        hornSounding sample_index0).2 = 128 ∧
    (audio_get_next_sample (fun _ => 0) 1 (fun _ => 200) 2 0
        hornSounding sample_index0).1.engine = 0 := by decide

/-- C2 (amended): for every call of `audio_get_next_sample` with
engine_speed = 0 the engine phase accumulator is reset to zero and the
engine track contributes the silence level 128; whenever additionally no
horn note is sounding (not playing, or a rest with increment 0), the
returned sample equals 128 and the horn cursor is also reset. -/
theorem c2_zero_speed_engine_silent (er : Nat → Nat) (erSize : Nat)
    (th : Nat → Nat) (thSize : Nat) (h : Horn) (si : SampleIndex) :
    (audio_get_next_sample er erSize th thSize 0 h si).1.engine = 0 ∧
    (¬ (h.playing = true ∧ h.index_increment ≠ 0) →
      (audio_get_next_sample er erSize th thSize 0 h si).1.horn = 0 ∧
      (audio_get_next_sample er erSize th thSize 0 h si).2 = 128) := by
  constructor
  · rfl
  · intro hq
    simp [audio_get_next_sample, hq]

/-- Witness for C2: the idle horn player at speed zero yields 128. -/
theorem c2_zero_speed_engine_silent_witness :
    (audio_get_next_sample (fun _ => 0) 1 (fun _ => 0) 1 0
        horn0 sample_index0).1.engine = 0 ∧
    (audio_get_next_sample (fun _ => 0) 1 (fun _ => 0) 1 0
        horn0 sample_index0).2 = 128 :=
  ⟨(c2_zero_speed_engine_silent (fun _ => 0) 1 (fun _ => 0) 1 horn0 sample_index0).1,
   ((c2_zero_speed_engine_silent (fun _ => 0) 1 (fun _ => 0) 1 horn0 sample_index0).2
      (by decide)).2⟩

/-- C5 (code bug): the engine track's sub-sample offset is `cursor & 0xF`,
always below 16, so the `offset < 48` (average) and `else` (nearest-above)
interpolation branches are dead: on an input whose offset lands mid
interval (offset 8 of 16) the code still emits the nearest-below table
entry (0) instead of the average of the two neighbours (50).  The phase
accumulator itself does advance by engine_speed >> 2. -/
theorem c5_engine_interpolation_dead_branches :
    (audio_get_next_sample (fun i => if i = 0 then 0 else 100) 4 (fun _ => 0) 1
        32 horn0 sample_index0).1.engine = 32 / 4 ∧
    (audio_get_next_sample (fun i => if i = 0 then 0 else 100) 4 (fun _ => 0) 1
        32 horn0 sample_index0).1.engine % 16 = 8 ∧
    (audio_get_next_sample (fun i => if i = 0 then 0 else 100) 4 (fun _ => 0) 1
        32 horn0 sample_index0).2 = (fun i => if i = 0 then 0 else 100) 0 ∧
    ((fun i => if i = 0 then 0 else 100) 0 / 2 +
        (fun i => if i = 0 then 0 else 100) 1 / 2 : Nat) = 50 ∧
    ¬ (audio_get_next_sample (fun i => if i = 0 then 0 else 100) 4 (fun _ => 0) 1
        32 horn0 sample_index0).2 = 50 := by decide

/-- C6 (counterexample): the duration of a rest (HORN_PAUSE_DURATION = 1
tick) is shorter, not longer, than the duration of a sounding note
(HORN_NOTE_DURATION = 4 ticks): from a fresh counter, one tick advances
past a rest, while a sounding note is still held. -/
theorem c6_pause_shorter_than_note :
    HORN_PAUSE_DURATION < HORN_NOTE_DURATION ∧
    ¬ HORN_NOTE_DURATION < HORN_PAUSE_DURATION ∧
    (audio_horn_manager hornOnRest).current_note = hornOnRest.current_note + 1 ∧
    (audio_horn_manager hornOnNote).current_note = hornOnNote.current_note := by
  decide

/-- C6 (amended): while a song is playing, the required duration of the
current note is SHORTER for rests (increment 0, HORN_PAUSE_DURATION) than
for sounding notes (HORN_NOTE_DURATION); the per-note counter increments
each tick, and upon reaching the required duration the counter resets to 0
and the note index advances to the next note. -/
theorem c6_note_durations_and_advance (h : Horn) (hp : h.playing = true)
    (hnc : h.note_counter + 1 < 256) (hcn : h.current_note + 1 < 256) :
    HORN_PAUSE_DURATION < HORN_NOTE_DURATION ∧
    (h.note_counter + 1 <
        (if h.index_increment ≠ 0 then HORN_NOTE_DURATION else HORN_PAUSE_DURATION) →
      (audio_horn_manager h).note_counter = h.note_counter + 1 ∧
      (audio_horn_manager h).current_note = h.current_note) ∧
    ((if h.index_increment ≠ 0 then HORN_NOTE_DURATION else HORN_PAUSE_DURATION) ≤
        h.note_counter + 1 →
      (audio_horn_manager h).note_counter = 0 ∧
      (audio_horn_manager h).current_note = h.current_note + 1) := by
  obtain ⟨⟨sz, notes⟩, cn, ncnt, inc, pl⟩ := h
  simp only at hp hnc hcn
  subst hp
  unfold audio_horn_manager
  simp only [if_true]
  rw [Nat.mod_eq_of_lt hnc]
  refine ⟨by decide, fun hlt => ?_, fun hge => ?_⟩
  · rw [if_neg (by omega)]
    exact ⟨rfl, rfl⟩
  · rw [if_pos hge, Nat.mod_eq_of_lt hcn]
    exact ⟨rfl, rfl⟩

/-- Witness for C6: a sounding note with a fresh counter is held. -/
theorem c6_note_durations_and_advance_witness :
    (audio_horn_manager hornOnNote).note_counter = 1 ∧
    (audio_horn_manager hornOnNote).current_note = 0 :=
  (c6_note_durations_and_advance hornOnNote rfl (by decide) (by decide)).2.1
    (by decide)

/-- One horn player call preserves the horn invariant. -/
theorem hornInvariant_apply (h : Horn) (op : HornOp) (hinv : hornInvariant h) :
    hornInvariant (applyHornOp h op) := by
  obtain ⟨⟨sz, notes⟩, cn, ncnt, inc, pl⟩ := h
  obtain ⟨h1, h2⟩ := hinv
  simp only [hornInvariant] at h1 h2 ⊢
  cases op with
  | play s =>
    by_cases hs : s < SONG_COUNT
    · simp [applyHornOp, audio_play_horn_song, hs]
    · simpa [applyHornOp, audio_play_horn_song, hs] using ⟨h1, h2⟩
  | tick =>
    cases pl with
    | false =>
      refine ⟨?_, ?_⟩ <;> simp_all [applyHornOp, audio_horn_manager]
    | true =>
      have hcn : cn ≤ sz := h2 rfl
      simp only [applyHornOp, audio_horn_manager, if_true]
      split_ifs <;> constructor
      all_goals simp_all
      all_goals omega

/-- A fold of horn player calls preserves the horn invariant. -/
theorem hornInvariant_foldl (ops : List HornOp) (h : Horn)
    (hinv : hornInvariant h) : hornInvariant (ops.foldl applyHornOp h) := by
  induction ops generalizing h with
  | nil => exact hinv
  | cons op rest ih => exact ih _ (hornInvariant_apply h op hinv)

/-- C8 (counterexample): playing song 0 (size 3) and ticking the manager 13
times drives the note index to 4, strictly beyond the copied song's
length. -/
theorem c8_note_index_passes_size :
    ((HornOp.play 0 :: List.replicate 13 HornOp.tick).foldl
        applyHornOp horn0).song.size = 3 ∧
    ((HornOp.play 0 :: List.replicate 13 HornOp.tick).foldl
        applyHornOp horn0).current_note = 4 ∧
    ¬ ((HornOp.play 0 :: List.replicate 13 HornOp.tick).foldl
        applyHornOp horn0).current_note ≤
      ((HornOp.play 0 :: List.replicate 13 HornOp.tick).foldl
        applyHornOp horn0).song.size := by decide

/-- C8 (amended): across every sequence of `audio_play_horn_song` and
`audio_horn_manager` calls from the initial state, the note index never
exceeds the copied song's length plus one, and it never exceeds the length
while a song is playing; the step that moves the index past the end clears
`playing` to false. -/
theorem c8_horn_invariant :
    (∀ ops : List HornOp, hornInvariant (ops.foldl applyHornOp horn0)) ∧
    (∀ h : Horn, hornInvariant h →
      h.song.size < (audio_horn_manager h).current_note →
      (audio_horn_manager h).playing = false) := by
  constructor
  · intro ops
    exact hornInvariant_foldl ops horn0 (by decide)
  · intro h hinv hpast
    obtain ⟨⟨sz, notes⟩, cn, ncnt, inc, pl⟩ := h
    obtain ⟨h1, h2⟩ := hinv
    cases pl with
    | false => simp_all [audio_horn_manager]
    | true =>
      have hcn : cn ≤ sz := h2 rfl
      simp only [audio_horn_manager, if_true] at hpast ⊢
      split_ifs at hpast ⊢
      all_goals simp_all
      all_goals omega

/-- Witness for C8: the invariant after one playback request, and the
playing flag cleared by the manager step that passes the end of the
single-honk song. -/
theorem c8_horn_invariant_witness :
    hornInvariant ((HornOp.play 0 :: List.nil).foldl applyHornOp horn0) ∧
    (audio_horn_manager hornAtEnd).playing = false :=
  ⟨c8_horn_invariant.1 (HornOp.play 0 :: List.nil),
   c8_horn_invariant.2 hornAtEnd (by decide) (by decide)⟩

/-- C4 (counterexample): at a post-update led counter of 13 — odd and
within the first half of the 75-tick blink cycle — the update returns
false even though the public speed is above the effects threshold, so the
light is not on throughout the odd ticks of the first half-cycle. -/
theorem c4_first_half_led_off :
    (tractor_update_model { tRunning with led_counter := 12 } horn0).2 = false ∧
    (tractor_update_model { tRunning with led_counter := 12 } horn0).1.1.led_counter = 13 ∧
    ENGINE_SPEED_MIN ≤ tractor_get_engine_speed
      (tractor_update_model { tRunning with led_counter := 12 } horn0).1.1 ∧
    13 % 2 = 1 ∧
    13 < (LED_CYCLE + 1) / 2 := by decide

/-- C4 (amended): `tractor_update_model` returns true exactly when, on the
updated state, the public engine speed is at least ENGINE_SPEED_MIN = 68
and the led blink counter is odd and within the first 12 ticks of the
blink cycle; over one full LED_CYCLE that window lights the led on exactly
six counter values (six discrete flashes). -/
theorem c4_led_iff_window :
    (∀ (t : Tractor) (h : Horn),
      (tractor_update_model t h).2 = true ↔
        (ENGINE_SPEED_MIN ≤
            tractor_get_engine_speed (tractor_update_model t h).1.1 ∧
         (tractor_update_model t h).1.1.led_counter % 2 = 1 ∧
         (tractor_update_model t h).1.1.led_counter < 12)) ∧
    (Finset.filter (fun c => is_led_on { tRunning with led_counter := c } = true)
        (Finset.range (LED_CYCLE + 1))).card = 6 := by
  constructor
  · intro t h
    exact is_led_on_iff (tractor_switch t h).1
  · decide

/-- In the RUNNING state with ignition not OFF and speed at or above the
effects threshold, one switch step increments the horn counter (resetting
it at HORN_CYCLE) and triggers the double honk exactly at HORN_CYCLE / 2
and the single honk exactly at HORN_CYCLE. -/
theorem tractor_switch_running_honk (es hcnt spt ign cc lc : Nat) (h : Horn)
    (hi : ign ≠ IGNITION_OFF)
    (hsp : ENGINE_SPEED_MIN ≤ tractor_get_engine_speed ⟨es, hcnt, ENGINE_RUNNING, spt, ign, cc, lc⟩)
    (hhc : hcnt < HORN_CYCLE) :
    (tractor_switch ⟨es, hcnt, ENGINE_RUNNING, spt, ign, cc, lc⟩ h).1.horn_counter =
      (if hcnt + 1 = HORN_CYCLE then 0 else hcnt + 1) ∧
    (tractor_switch ⟨es, hcnt, ENGINE_RUNNING, spt, ign, cc, lc⟩ h).2 =
      (if hcnt + 1 = HORN_CYCLE / 2 then audio_play_horn_song SONG_DOUBLE_HONK h
       else if hcnt + 1 = HORN_CYCLE then audio_play_horn_song SONG_SINGLE_HONK h
       else h) := by
  have hmod : (hcnt + 1) % 65536 = hcnt + 1 := by
    have h4 : HORN_CYCLE = 400 := rfl
    exact Nat.mod_eq_of_lt (by omega)
  simp only [tractor_get_engine_speed, ENGINE_RUNNING, ENGINE_SPEED_MIN] at hsp
  simp only [tractor_switch, update_engine_speed, tractor_get_engine_speed,
    ENGINE_RUNNING, ENGINE_CRANKING, IGNITION_OFF, ENGINE_SPEED_MIN,
    HORN_CYCLE, TRACTOR_STATUS_UPDATE_CYCLE, hmod] at hhc ⊢
  norm_num at hhc ⊢
  have hi0 : ign ≠ 0 := hi
  rw [if_neg hi0, if_pos hsp]
  split_ifs <;> simp_all <;> omega

/-- In the RUNNING state with ignition not OFF and speed below the effects
threshold, one switch step leaves the horn counter and the horn player
untouched. -/
theorem tractor_switch_running_low (es hcnt spt ign cc lc : Nat) (h : Horn)
    (hi : ign ≠ IGNITION_OFF)
    (hsp : tractor_get_engine_speed ⟨es, hcnt, ENGINE_RUNNING, spt, ign, cc, lc⟩ < ENGINE_SPEED_MIN) :
    (tractor_switch ⟨es, hcnt, ENGINE_RUNNING, spt, ign, cc, lc⟩ h).1.horn_counter = hcnt ∧
    (tractor_switch ⟨es, hcnt, ENGINE_RUNNING, spt, ign, cc, lc⟩ h).2 = h := by
  simp only [tractor_get_engine_speed, ENGINE_RUNNING, ENGINE_SPEED_MIN] at hsp
  simp only [tractor_switch, update_engine_speed, tractor_get_engine_speed,
    ENGINE_RUNNING, ENGINE_CRANKING, IGNITION_OFF, ENGINE_SPEED_MIN] at hi ⊢
  norm_num
  have hi0 : ign ≠ 0 := hi
  rw [if_neg hi0, if_neg (by omega : ¬ 68 ≤ es / 256 % 256)]
  exact ⟨rfl, rfl⟩

set_option maxRecDepth 1000000 in
/-- C7: while RUNNING with ignition not OFF, if the public speed is at or
above ENGINE_SPEED_MIN each update advances the horn cycle counter,
triggers the double honk exactly when the counter reaches HORN_CYCLE / 2,
and triggers the single honk exactly when it reaches HORN_CYCLE, at which
point the counter resets to 0; below the threshold the counter and horn
player do not advance.  Concretely, over one full cycle at constant speed
the double honk plays only at tick 200 and the single honk only at tick
400, with the counter back at 0. -/
theorem c7_horn_cycle_honks :
    (∀ (t : Tractor) (h : Horn),
      t.status = ENGINE_RUNNING → t.ignition_position ≠ IGNITION_OFF →
      ((ENGINE_SPEED_MIN ≤ tractor_get_engine_speed t → t.horn_counter < HORN_CYCLE →
        (tractor_update_model t h).1.1.horn_counter =
          (if t.horn_counter + 1 = HORN_CYCLE then 0 else t.horn_counter + 1) ∧
        (tractor_update_model t h).1.2 = audio_horn_manager
          (if t.horn_counter + 1 = HORN_CYCLE / 2 then
             audio_play_horn_song SONG_DOUBLE_HONK h
           else if t.horn_counter + 1 = HORN_CYCLE then
             audio_play_horn_song SONG_SINGLE_HONK h
           else h)) ∧
       (tractor_get_engine_speed t < ENGINE_SPEED_MIN →
        (tractor_update_model t h).1.1.horn_counter = t.horn_counter ∧
        (tractor_update_model t h).1.2 = audio_horn_manager h))) ∧
    ((runModel 200 (tRunning, horn0)).2.playing = true ∧
     (runModel 200 (tRunning, horn0)).2.song = SONG_LIBRARY.getD SONG_DOUBLE_HONK horn0.song ∧
     (runModel 199 (tRunning, horn0)).2.playing = false ∧
     (runModel 400 (tRunning, horn0)).2.song = SONG_LIBRARY.getD SONG_SINGLE_HONK horn0.song ∧
     (runModel 400 (tRunning, horn0)).1.horn_counter = 0 ∧
     (runModel 399 (tRunning, horn0)).1.horn_counter = HORN_CYCLE - 1 ∧
     (runModel 399 (tRunning, horn0)).2.playing = false) := by
  constructor
  · intro t h hs hi
    obtain ⟨es, hcnt, st, spt, ign, cc, lc⟩ := t
    simp only at hs hi
    subst hs
    constructor
    · intro hsp hhc
      have hk := tractor_switch_running_honk es hcnt spt ign cc lc h hi hsp hhc
      refine ⟨hk.1, ?_⟩
      show audio_horn_manager
          (tractor_switch ⟨es, hcnt, ENGINE_RUNNING, spt, ign, cc, lc⟩ h).2 = _
      rw [hk.2]
    · intro hsp
      have hk := tractor_switch_running_low es hcnt spt ign cc lc h hi hsp
      refine ⟨hk.1, ?_⟩
      show audio_horn_manager
          (tractor_switch ⟨es, hcnt, ENGINE_RUNNING, spt, ign, cc, lc⟩ h).2 = _
      rw [hk.2]
  · decide

/-- Witness for C7: one update of the full-speed running tractor advances
the horn counter from 0 to 1 and only ticks the idle horn player. -/
theorem c7_horn_cycle_honks_witness :
    (tractor_update_model tRunning horn0).1.1.horn_counter = 1 ∧
    (tractor_update_model tRunning horn0).1.2 = audio_horn_manager horn0 := by
  have hk := (c7_horn_cycle_honks.1 tRunning horn0 rfl (by decide)).1
    (by decide) (by decide)
  exact ⟨hk.1, hk.2⟩

/-- Bits of the uint8 complement mask 255. -/
theorem testBit_255 (i : Nat) : (255 : Nat).testBit i = decide (i < 8) := by
  have h : (255 : Nat) = 2 ^ 8 - 1 := by norm_num
  rw [h, Nat.testBit_two_pow_sub_one]

/-- Bits of the button mask (1 << BUTTON_COUNT) - 1 = 7. -/
theorem testBit_7 (i : Nat) : (7 : Nat).testBit i = decide (i < 3) := by
  have h : (7 : Nat) = 2 ^ 3 - 1 := by norm_num
  rw [h, Nat.testBit_two_pow_sub_one]

/-- Accumulating a rising edge into the click mask: when the previous level
bit of `b` is 0, the new click bit of `b` is the new level bit OR the old
click bit. -/
theorem click_edge_bit (cl lev lvl b : Nat) (hb : b < 8) (hlv : lvl < 8)
    (hlev : lev.testBit b = false) :
    (cl ||| ((255 ^^^ lev) &&& lvl &&& 7)).testBit b =
      (lvl.testBit b || cl.testBit b) := by
  rw [Nat.testBit_or, Nat.testBit_and, Nat.testBit_and, Nat.testBit_xor,
    testBit_255, testBit_7, hlev]
  by_cases h3 : b < 3
  · simp [hb, h3, Bool.or_comm]
  · have hlb : lvl.testBit b = false := by
      refine Nat.testBit_lt_two_pow (lt_of_lt_of_le hlv ?_)
      calc (8 : Nat) = 2 ^ 3 := by norm_num
      _ ≤ 2 ^ b := Nat.pow_le_pow_right (by norm_num) (by omega)
    simp [hb, h3, hlb]

/-- C9: `button_is_clicked b` returns the pending-click bit of `b` and
clears exactly that bit: the level mask and every other click bit are
unchanged, an immediate second read returns false, and a rising edge of
`b` recorded by `button_set_adc_value` sets exactly the bit that the read
observes. -/
theorem c9_click_read_and_clear (b : Nat) (st : ButtonState)
    (hb : b < 8) (hcl : st.clicked < 256) :
    ((button_is_clicked b st).1 = st.clicked.testBit b) ∧
    ((button_is_clicked b st).2.level = st.level) ∧
    ((button_is_clicked b st).2.clicked.testBit b = false) ∧
    (∀ i, i ≠ b →
      (button_is_clicked b st).2.clicked.testBit i = st.clicked.testBit i) ∧
    ((button_is_clicked b ((button_is_clicked b st).2)).1 = false) ∧
    (∀ (adc : Nat) (st2 : ButtonState), st2.level.testBit b = false →
      (button_set_adc_value adc st2).clicked.testBit b =
        ((button_set_adc_value adc st2).level.testBit b ||
          st2.clicked.testBit b)) := by
  have hpow : 2 ^ b < 256 := by
    calc 2 ^ b < 2 ^ 8 := Nat.pow_lt_pow_right (by norm_num) hb
    _ = 256 := by norm_num
  have hmask : BM b % 256 = 2 ^ b := by
    have h1 : BM b = 2 ^ b := by rw [BM, Nat.shiftLeft_eq, one_mul]
    rw [h1, Nat.mod_eq_of_lt hpow]
  have hnew : (button_is_clicked b st).2.clicked =
      st.clicked &&& (255 ^^^ 2 ^ b) := by
    simp [button_is_clicked, hmask]
  have hbitb : (st.clicked &&& (255 ^^^ 2 ^ b)).testBit b = false := by
    rw [Nat.testBit_and, Nat.testBit_xor, testBit_255, Nat.testBit_two_pow]
    simp [hb]
  refine ⟨?_, rfl, ?_, ?_, ?_, ?_⟩
  · show decide ((st.clicked &&& (BM b % 256)) ≠ 0) = st.clicked.testBit b
    rw [hmask, Nat.and_two_pow]
    have h2b : 2 ^ b ≠ 0 := Nat.pos_iff_ne_zero.mp (Nat.pos_pow_of_pos b (by norm_num))
    cases h : st.clicked.testBit b <;> simp [h2b]
  · rw [hnew]
    exact hbitb
  · intro i hi
    rw [hnew, Nat.testBit_and, Nat.testBit_xor, testBit_255, Nat.testBit_two_pow]
    have hbi : decide (b = i) = false := by
      simp only [decide_eq_false_iff_not]
      omega
    by_cases h8 : i < 8
    · simp [h8, hbi]
    · have hz : st.clicked.testBit i = false := by
        refine Nat.testBit_lt_two_pow (lt_of_lt_of_le hcl ?_)
        calc (256 : Nat) = 2 ^ 8 := by norm_num
        _ ≤ 2 ^ i := Nat.pow_le_pow_right (by norm_num) (by omega)
      simp [h8, hbi, hz]
  · show decide (((button_is_clicked b st).2.clicked &&& (BM b % 256)) ≠ 0) = false
    rw [hmask, hnew, Nat.and_two_pow, hbitb]
    simp
  · intro adc st2 hlev
    simp only [button_set_adc_value]
    have h7 : (1 <<< BUTTON_COUNT) - 1 = 7 := by decide
    rw [h7]
    split_ifs <;>
      exact click_edge_bit st2.clicked st2.level _ b hb (by decide) hlev

/-- Witness for C9: button 1 with its click bit pending reads true once
and false immediately after. -/
theorem c9_click_read_and_clear_witness :
    (button_is_clicked 1 { level := 0, clicked := 2 }).1 = true ∧
    (button_is_clicked 1
        ((button_is_clicked 1 { level := 0, clicked := 2 }).2)).1 = false := by
  have hk := c9_click_read_and_clear 1 { level := 0, clicked := 2 }
    (by decide) (by decide)
  exact ⟨hk.1.trans (by decide), hk.2.2.2.2.1⟩

/-- The led computation does not depend on the ignition position. -/
theorem is_led_on_ign (t : Tractor) (p : Nat) :
    is_led_on { t with ignition_position := p } = is_led_on t := by
  obtain ⟨es, hcnt, st, spt, ign, cc, lc⟩ := t
  rfl

/-- The switch step only tests the ignition position against IGNITION_OFF
and IGNITION_START, so any two positions that are neither behave
identically, up to the stored position itself. -/
theorem tractor_switch_ign_invisible (t : Tractor) (h : Horn) (p q : Nat)
    (hp0 : p ≠ IGNITION_OFF) (hp2 : p ≠ IGNITION_START)
    (hq0 : q ≠ IGNITION_OFF) (hq2 : q ≠ IGNITION_START) :
    tractor_switch { t with ignition_position := p } h =
      ({ (tractor_switch { t with ignition_position := q } h).1 with
          ignition_position := p },
       (tractor_switch { t with ignition_position := q } h).2) := by
  obtain ⟨es, hcnt, st, spt, ign, cc, lc⟩ := t
  simp only [IGNITION_OFF, IGNITION_START] at hp0 hp2 hq0 hq2
  simp only [tractor_switch, update_engine_speed, tractor_get_engine_speed,
    IGNITION_OFF, IGNITION_START, ENGINE_CRANKING, ENGINE_RUNNING,
    ENGINE_SPEED_MIN]
  split_ifs <;> simp_all [Prod.ext_iff, Tractor.mk.injEq]

/-- From the OFF state, an ignition position other than START does not
begin cranking. -/
theorem tractor_switch_off_stays (es hcnt spt ign cc lc : Nat) (h : Horn)
    (hig : ign ≠ IGNITION_START) :
    (tractor_switch ⟨es, hcnt, ENGINE_OFF, spt, ign, cc, lc⟩ h).1.status =
      ENGINE_OFF := by
  simp only [IGNITION_START] at hig
  simp only [tractor_switch, update_engine_speed, ENGINE_OFF, ENGINE_CRANKING,
    ENGINE_RUNNING, IGNITION_START]
  norm_num
  rw [if_neg hig]

/-- From the CRANKING state before the minimum cranking time, an ignition
position other than START aborts to OFF with setpoint 0. -/
theorem tractor_switch_cranking_aborts (es hcnt spt ign cc lc : Nat) (h : Horn)
    (hig : ign ≠ IGNITION_START) (hcc : cc + 1 ≤ CRANKING_MINIMUM_TIME) :
    (tractor_switch ⟨es, hcnt, ENGINE_CRANKING, spt, ign, cc, lc⟩ h).1.status =
      ENGINE_OFF ∧
    (tractor_switch ⟨es, hcnt, ENGINE_CRANKING, spt, ign, cc, lc⟩
        h).1.engine_speed_setpoint = 0 := by
  have hC : CRANKING_MINIMUM_TIME = 100 := rfl
  rw [hC] at hcc
  have hmod : (cc + 1) % 256 = cc + 1 := Nat.mod_eq_of_lt (by omega)
  simp only [IGNITION_START] at hig
  simp only [tractor_switch, update_engine_speed, ENGINE_OFF, ENGINE_CRANKING,
    ENGINE_RUNNING, IGNITION_START, CRANKING_MINIMUM_TIME,
    TRACTOR_STATUS_UPDATE_CYCLE, hmod]
  norm_num
  rw [if_neg (by omega : ¬ 100 < cc + 1), if_neg hig]
  exact ⟨rfl, rfl⟩

/-- From the RUNNING state, an ignition position other than OFF keeps the
engine running. -/
theorem tractor_switch_running_stays (es hcnt spt ign cc lc : Nat) (h : Horn)
    (hig : ign ≠ IGNITION_OFF) :
    (tractor_switch ⟨es, hcnt, ENGINE_RUNNING, spt, ign, cc, lc⟩ h).1.status =
      ENGINE_RUNNING := by
  simp only [IGNITION_OFF] at hig
  simp only [tractor_switch, update_engine_speed, tractor_get_engine_speed,
    ENGINE_OFF, ENGINE_CRANKING, ENGINE_RUNNING, IGNITION_OFF,
    ENGINE_SPEED_MIN]
  norm_num
  rw [if_neg hig]
  split_ifs <;> rfl

/-- C10: `tractor_set_ignition_position` stores any 8-bit argument without
validation, and every stored position other than IGNITION_OFF and
IGNITION_START behaves exactly like IGNITION_ON in the state machine: the
updated tractor, horn player and led flag agree with the IGNITION_ON run
(up to the stored position); in particular from OFF the update does not
begin cranking, from CRANKING (before the minimum cranking time) it aborts
to OFF with setpoint 0, and from RUNNING it keeps the engine running. -/
theorem c10_ignition_like_on (p : Nat) (t : Tractor) (h : Horn)
    (_hp : p < 256) (h0 : p ≠ IGNITION_OFF) (h2 : p ≠ IGNITION_START) :
    tractor_set_ignition_position p t = { t with ignition_position := p } ∧
    ((tractor_update_model (tractor_set_ignition_position p t) h).1.1 =
      { (tractor_update_model (tractor_set_ignition_position IGNITION_ON t) h).1.1 with
          ignition_position := p }) ∧
    ((tractor_update_model (tractor_set_ignition_position p t) h).1.2 =
      (tractor_update_model (tractor_set_ignition_position IGNITION_ON t) h).1.2) ∧
    ((tractor_update_model (tractor_set_ignition_position p t) h).2 =
      (tractor_update_model (tractor_set_ignition_position IGNITION_ON t) h).2) ∧
    (t.status = ENGINE_OFF →
      (tractor_update_model (tractor_set_ignition_position p t) h).1.1.status =
        ENGINE_OFF) ∧
    (t.status = ENGINE_CRANKING → t.cranking_counter + 1 ≤ CRANKING_MINIMUM_TIME →
      (tractor_update_model (tractor_set_ignition_position p t) h).1.1.status =
        ENGINE_OFF ∧
      (tractor_update_model (tractor_set_ignition_position p t)
          h).1.1.engine_speed_setpoint = 0) ∧
    (t.status = ENGINE_RUNNING →
      (tractor_update_model (tractor_set_ignition_position p t) h).1.1.status =
        ENGINE_RUNNING) := by
  have hq0 : (IGNITION_ON : Nat) ≠ IGNITION_OFF := by decide
  have hq2 : (IGNITION_ON : Nat) ≠ IGNITION_START := by decide
  have hsw := tractor_switch_ign_invisible t h p IGNITION_ON h0 h2 hq0 hq2
  obtain ⟨es, hcnt, st, spt, ign, cc, lc⟩ := t
  refine ⟨rfl, ?_, ?_, ?_, ?_, ?_, ?_⟩
  · show (tractor_switch ⟨es, hcnt, st, spt, p, cc, lc⟩ h).1 =
      { (tractor_switch ⟨es, hcnt, st, spt, IGNITION_ON, cc, lc⟩ h).1 with
          ignition_position := p }
    rw [hsw]
  · show audio_horn_manager (tractor_switch ⟨es, hcnt, st, spt, p, cc, lc⟩ h).2 =
      audio_horn_manager (tractor_switch ⟨es, hcnt, st, spt, IGNITION_ON, cc, lc⟩ h).2
    rw [hsw]
  · show is_led_on (tractor_switch ⟨es, hcnt, st, spt, p, cc, lc⟩ h).1 =
      is_led_on (tractor_switch ⟨es, hcnt, st, spt, IGNITION_ON, cc, lc⟩ h).1
    rw [hsw]
    exact is_led_on_ign _ p
  · intro hst
    simp only at hst
    subst hst
    exact tractor_switch_off_stays es hcnt spt p cc lc h h2
  · intro hst hcc
    simp only at hst hcc
    subst hst
    exact tractor_switch_cranking_aborts es hcnt spt p cc lc h h2 hcc
  · intro hst
    simp only at hst
    subst hst
    exact tractor_switch_running_stays es hcnt spt p cc lc h h0

/-- Witness for C10: storing position 5 in the initial state and updating
keeps the engine off. -/
theorem c10_ignition_like_on_witness :
    tractor_set_ignition_position 5 tractor0 =
      { tractor0 with ignition_position := 5 } ∧
    (tractor_update_model (tractor_set_ignition_position 5 tractor0)
        horn0).1.1.status = ENGINE_OFF := by
  have hk := c10_ignition_like_on 5 tractor0 horn0 (by decide) (by decide)
    (by decide)
  exact ⟨hk.1, hk.2.2.2.2.1 rfl⟩

end TinyTractor
